import Mathlib

/-!
# go-simple-crud: the todo service of `crud_sql/main_mysql.go`

A shallow embedding of the six gin handlers and of the one table they work on.

* The process-wide handle `db` becomes an explicit value `DB` that every handler receives
  and, when it writes, returns.
* The table follows the schema quoted at the top of the source file:
  `id INT AUTO_INCREMENT`, `item VARCHAR(255) NOT NULL`, `completed tinyint(1) unsigned`.
  Rows are kept in scan order.  The server runs in its default (strict) SQL mode: an item
  longer than the column is refused, except that excess trailing spaces are cut and the
  shortened item is stored, as MySQL does for `VARCHAR` in every mode.
* Ids are mathematical integers (the 32-bit range of `INT` is not exhausted), every stored
  `completed` is a number (no `NULL`), and requests are served one after the other.
* A statement can also fail for a reason outside the table (connection lost, timeout).
  Each handler receives the `Faults` of its request: for the n-th statement it issues,
  either nothing or the error that the driver reports.  A statement that fails leaves the
  table as it was.  `healthy` is the storage that answers every statement.
* `WHERE id = ?` receives the path parameter as a string.  How the storage reads such a
  string as a key is a parameter `key` of the model; a row matches when `key id` is its id.
  The `SELECT`, `UPDATE` and `DELETE` statements read an identifier in the same way.
* A response is the status code together with the Go value handed to gin's JSON renderer;
  `Payload.toJSON` is what `encoding/json` writes for it (indentation aside).
* Statements about a request that goes through are made for `healthy`; statements about
  failing requests range over all `Faults`.
-/

namespace CrudSql

/-! ## Data model -/

/-- The Go struct `Todo`; `Completed` is a `uint8`. -/
structure Todo where
  ID : Int
  Item : String
  Completed : Nat
deriving DecidableEq, Repr

/-- JSON documents, for request bodies and rendered responses.  Numbers are integer
literals, the only ones the fields of `Todo` accept. -/
inductive JSON where
  | null
  | bool (b : Bool)
  | num (n : Int)
  | str (s : String)
  | arr (elems : List JSON)
  | obj (members : List (String × JSON))

/-- A Go value of type `[]Todo`: the nil slice of `var todos []Todo`, or a slice with
elements. -/
inductive TodoSlice where
  | nil
  | elems (xs : List Todo)
deriving DecidableEq, Repr

/-- Go `append(todos, todo)`. -/
def TodoSlice.append : TodoSlice → Todo → TodoSlice
  | .nil, t => .elems [t]
  | .elems xs, t => .elems (xs ++ [t])

/-- Go `len(todos)`. -/
def TodoSlice.len : TodoSlice → Nat
  | .nil => 0
  | .elems xs => xs.length

/-- The elements of a slice, in order. -/
def TodoSlice.toList : TodoSlice → List Todo
  | .nil => []
  | .elems xs => xs

/-- The value a handler passes to `c.JSON` / `c.IndentedJSON`. -/
inductive Payload where
  | todo (t : Todo)
  | todos (s : TodoSlice)
  | H (error : String)
deriving DecidableEq, Repr

/-- An HTTP response: status code and payload. -/
structure Response where
  status : Nat
  body : Payload
deriving DecidableEq, Repr

@[reducible] def StatusOK : Nat := 200
@[reducible] def StatusCreated : Nat := 201
@[reducible] def StatusBadRequest : Nat := 400
@[reducible] def StatusNotFound : Nat := 404

/-! ## JSON rendering (`encoding/json` with the struct tags of `Todo`) -/

/-- Rendering of a `Todo`: `id` and `completed` carry `omitempty`. -/
def marshalTodo (t : Todo) : JSON :=
  .obj ((if t.ID = 0 then [] else [("id", JSON.num t.ID)])
    ++ [("item", JSON.str t.Item)]
    ++ (if t.Completed = 0 then [] else [("completed", JSON.num (t.Completed : Int))]))

/-- Rendering of a `[]Todo`: a nil slice is written as `null`. -/
def marshalTodos : TodoSlice → JSON
  | .nil => .null
  | .elems xs => .arr (xs.map marshalTodo)

/-- The JSON document written for a payload. -/
def Payload.toJSON : Payload → JSON
  | .todo t => marshalTodo t
  | .todos s => marshalTodos s
  | .H msg => .obj [("error", JSON.str msg)]

/-! ## JSON binding (`c.BindJSON`, `c.ShouldBindJSON` into a `Todo`) -/

/-- The fields of `Todo` a JSON key can address. -/
inductive Field where
  | id
  | item
  | completed
deriving DecidableEq, Repr

/-- Key lookup of `encoding/json`: the tag name, compared without regard to letter case. -/
def fieldOf (name : String) : Option Field :=
  let lower := name.data.map Char.toLower
  if lower = "id".data then some .id
  else if lower = "item".data then some .item
  else if lower = "completed".data then some .completed
  else none

/-- Storing one member of the request object into the struct.  Unknown keys and `null`
leave the struct as it is; a value of the wrong JSON type, or a number outside the range of
the field, is an unmarshal error. -/
def setField (t : Todo) (name : String) (v : JSON) : Except String Todo :=
  match fieldOf name, v with
  | none, _ => .ok t
  | some _, .null => .ok t
  | some .id, .num n =>
    if -(2 ^ 63 : Int) ≤ n ∧ n < 2 ^ 63 then .ok { t with ID := n }
    else .error "json: cannot unmarshal number into Go struct field Todo.id of type int"
  | some .item, .str s => .ok { t with Item := s }
  | some .completed, .num n =>
    if 0 ≤ n ∧ n ≤ 255 then .ok { t with Completed := n.toNat }
    else .error "json: cannot unmarshal number into Go struct field Todo.completed of type uint8"
  | some _, _ => .error "json: cannot unmarshal value into Go struct field of Todo"

/-- Storing the members of an object one after the other (a later duplicate wins). -/
def setFields : Todo → List (String × JSON) → Except String Todo
  | t, [] => .ok t
  | t, (name, v) :: rest =>
    match setField t name v with
    | .error e => .error e
    | .ok t1 => setFields t1 rest

/-- Decoding of a JSON document into `var todo Todo` (all fields zero before). -/
def unmarshalTodo : JSON → Except String Todo
  | .null => .ok ⟨0, "", 0⟩
  | .obj members => setFields ⟨0, "", 0⟩ members
  | _ => .error "json: cannot unmarshal value into Go value of type main.Todo"

/-- Binding of a request body; `none` is a body that holds no JSON document (empty or
syntactically invalid).  `Todo` has no `binding` tags, so nothing is validated after
decoding. -/
def bindJSON (body : Option JSON) : Except String Todo :=
  match body with
  | none => .error "invalid request body"
  | some v => unmarshalTodo v

/-! ## Storage: table `todo` -/

/-- The table and its `AUTO_INCREMENT` counter. -/
structure DB where
  rows : List Todo
  nextID : Int
deriving DecidableEq, Repr

/-- Width of column `item`: `VARCHAR(255)`. -/
def itemWidth : Nat := 255

/-- What the driver reports for the statements of one request, counted from 0: `none` when
the storage answers the statement, `some msg` when the statement fails with error `msg`. -/
abbrev Faults := Nat → Option String

/-- The storage that answers every statement. -/
def healthy : Faults := fun _ => none

/-- What `row.Scan` can report for a single-row query. -/
inductive ScanError where
  | errNoRows
  | other (msg : String)
deriving DecidableEq, Repr

/-- Row filter of `WHERE id = ?` for the string parameter `id`. -/
def whereID (key : String → Option Int) (id : String) (r : Todo) : Bool :=
  key id == some r.ID

/-- `SELECT * FROM todo WHERE id = ?` followed by `row.Scan`: the driver's error when the
statement fails, `sql.ErrNoRows` when no row matches, the first matching row otherwise. -/
def DB.selectByID (key : String → Option Int) (db : DB) (id : String)
    (fault : Option String) : Except ScanError Todo :=
  match fault with
  | some msg => .error (.other msg)
  | none =>
    match db.rows.find? (whereID key id) with
    | none => .error .errNoRows
    | some r => .ok r

/-- `SELECT * FROM todo`. -/
def DB.selectAll (db : DB) (fault : Option String) : Except String (List Todo) :=
  match fault with
  | some msg => .error msg
  | none => .ok db.rows

/-- The value column `item` takes for a submitted string: the string itself when it fits;
the first 255 characters when all that exceeds them is spaces; an error otherwise. -/
def storeItem (item : String) : Except String String :=
  if item.length ≤ itemWidth then .ok item
  else if (item.data.drop itemWidth).all (fun c => c == ' ') then
    .ok (String.mk (item.data.take itemWidth))
  else .error "Error 1406 (22001): Data too long for column 'item' at row 1"

/-- `INSERT INTO todo (item, completed) VALUES (?, ?)`: the new row takes the counter as
its id and the item as the column stores it. -/
def DB.insert (db : DB) (item : String) (completed : Nat) (fault : Option String) :
    Except String DB :=
  match fault with
  | some msg => .error msg
  | none =>
    match storeItem item with
    | .error e => .error e
    | .ok v => .ok { rows := db.rows ++ [⟨db.nextID, v, completed⟩], nextID := db.nextID + 1 }

/-- The assignment `completed = CASE WHEN Completed = 0 THEN 1 ELSE 0 END`. -/
def flipCompleted (r : Todo) : Todo :=
  { r with Completed := if r.Completed = 0 then 1 else 0 }

/-- `UPDATE todo SET completed = CASE ... END WHERE id = ?`. -/
def DB.toggle (key : String → Option Int) (db : DB) (id : String) (fault : Option String) :
    Except String DB :=
  match fault with
  | some msg => .error msg
  | none =>
    .ok { db with rows := db.rows.map fun r => if whereID key id r then flipCompleted r else r }

/-- `UPDATE todo SET item = ?, completed = ? WHERE id = ?`: without a matching row nothing
is stored; a matching row is overwritten with the item as the column stores it. -/
def DB.update (key : String → Option Int) (db : DB) (item : String) (completed : Nat)
    (id : String) (fault : Option String) : Except String DB :=
  match fault with
  | some msg => .error msg
  | none =>
    if db.rows.any (whereID key id) then
      match storeItem item with
      | .error e => .error e
      | .ok v =>
        .ok { db with rows := db.rows.map fun r =>
                if whereID key id r then { r with Item := v, Completed := completed } else r }
    else .ok db

/-- `DELETE FROM todo WHERE id = ?`. -/
def DB.delete (key : String → Option Int) (db : DB) (id : String) (fault : Option String) :
    Except String DB :=
  match fault with
  | some msg => .error msg
  | none => .ok { db with rows := db.rows.filter fun r => !whereID key id r }

/-- A table as the storage keeps it: `id` is a primary key and the counter lies above
every id in use. -/
def DB.WF (db : DB) : Prop :=
  (db.rows.map Todo.ID).Nodup ∧ ∀ r ∈ db.rows, r.ID < db.nextID

instance (db : DB) : Decidable db.WF := by
  unfold DB.WF; infer_instance

/-! ## Handlers -/

/-- Source `getTodoById` (main_mysql.go 35-46): the row of the identifier, or the error
that names the function and the identifier.  It issues one statement. -/
def getTodoById (key : String → Option Int) (db : DB) (id : String)
    (fault : Option String) : Except String Todo :=
  match db.selectByID key id fault with
  | .error .errNoRows => .error ("todoById " ++ id ++ ": no such todo")
  | .error (.other msg) => .error ("todoById " ++ id ++ ": " ++ msg)
  | .ok todo => .ok todo

/-- Source `getTodo` (main_mysql.go 48-56, GET /todos/:id): every error of `getTodoById`
is answered with 404. -/
def getTodo (key : String → Option Int) (db : DB) (id : String) (env : Faults) : Response :=
  match getTodoById key db id (env 0) with
  | .error err => ⟨StatusNotFound, .H err⟩
  | .ok todo => ⟨StatusOK, .todo todo⟩

/-- Source `getTodos` (main_mysql.go 58-81, GET /todos): the rows are appended one by one
to the nil slice `todos`.  Statement 0 is `db.Query`; the error of the row iteration
(`rows.Err`) is statement 1.  Stored rows are scanned values, so `rows.Scan` itself
reports nothing. -/
def getTodos (db : DB) (env : Faults) : Response :=
  match db.selectAll (env 0) with
  | .error err => ⟨StatusBadRequest, .H err⟩
  | .ok rows =>
    let todos := rows.foldl TodoSlice.append .nil
    match env 1 with
    | some err => ⟨StatusBadRequest, .H err⟩
    | none => ⟨StatusOK, .todos todos⟩

/-- Source `createTodo` (main_mysql.go 83-102, POST /todos): bind, check the item, insert,
echo the bound Todo. -/
def createTodo (db : DB) (body : Option JSON) (env : Faults) : Response × DB :=
  match bindJSON body with
  | .error _ => (⟨StatusBadRequest, .H "invalid data"⟩, db)
  | .ok todo =>
    if todo.Item = "" then (⟨StatusBadRequest, .H "Item is required"⟩, db)
    else
      match db.insert todo.Item todo.Completed (env 0) with
      | .error err => (⟨StatusBadRequest, .H err⟩, db)
      | .ok db1 => (⟨StatusCreated, .todo todo⟩, db1)

/-- Source `toggleTodoStatus` (main_mysql.go 104-123, PATCH /todos/:id): the flipping
`UPDATE` (statement 0), then the row is read again (statement 1). -/
def toggleTodoStatus (key : String → Option Int) (db : DB) (id : String) (env : Faults) :
    Response × DB :=
  match db.toggle key id (env 0) with
  | .error err => (⟨StatusBadRequest, .H err⟩, db)
  | .ok db1 =>
    match getTodoById key db1 id (env 1) with
    | .error err => (⟨StatusBadRequest, .H err⟩, db1)
    | .ok todo => (⟨StatusOK, .todo todo⟩, db1)

/-- Source `updateTodo` (main_mysql.go 125-149, PUT /todos/:id): bind, the overwriting
`UPDATE` (statement 0), then the row is read again (statement 1). -/
def updateTodo (key : String → Option Int) (db : DB) (id : String) (body : Option JSON)
    (env : Faults) : Response × DB :=
  match bindJSON body with
  | .error _ => (⟨StatusBadRequest, .H "invalid data"⟩, db)
  | .ok todoData =>
    match db.update key todoData.Item todoData.Completed id (env 0) with
    | .error err => (⟨StatusBadRequest, .H err⟩, db)
    | .ok db1 =>
      match getTodoById key db1 id (env 1) with
      | .error err => (⟨StatusBadRequest, .H err⟩, db1)
      | .ok todo => (⟨StatusOK, .todo todo⟩, db1)

/-- Source `deleteTodo` (main_mysql.go 151-166, DELETE /todos/:id): read the row
(statement 0), delete it (statement 1), answer with the row as it was. -/
def deleteTodo (key : String → Option Int) (db : DB) (id : String) (env : Faults) :
    Response × DB :=
  match getTodoById key db id (env 0) with
  | .error err => (⟨StatusBadRequest, .H err⟩, db)
  | .ok todo =>
    match db.delete key id (env 1) with
    | .error err => (⟨StatusBadRequest, .H err⟩, db)
    | .ok db1 => (⟨StatusOK, .todo todo⟩, db1)

/-! ## Router and request sequences -/

/-- The six routes registered in `main` (main_mysql.go 195-200). -/
inductive Request where
  | list
  | get (id : String)
  | create (body : Option JSON)
  | toggle (id : String)
  | replace (id : String) (body : Option JSON)
  | delete (id : String)

/-- Dispatch of one request; the two GET handlers only read. -/
def route (key : String → Option Int) (db : DB) (q : Request) (env : Faults) :
    Response × DB :=
  match q with
  | .list => (getTodos db env, db)
  | .get id => (getTodo key db id env, db)
  | .create body => createTodo db body env
  | .toggle id => toggleTodoStatus key db id env
  | .replace id body => updateTodo key db id body env
  | .delete id => deleteTodo key db id env

def Request.isCreate : Request → Bool
  | .create _ => true
  | _ => false

def Request.isDelete : Request → Bool
  | .delete _ => true
  | _ => false

/-- The table after a sequence of requests served one after the other, each with the
faults the storage shows during it. -/
def serve (key : String → Option Int) : DB → List (Request × Faults) → DB
  | db, [] => db
  | db, q :: qs => serve key (route key db q.1 q.2).2 qs

/-- The number of create requests of a sequence that were answered with 201. -/
def createdCount (key : String → Option Int) : DB → List (Request × Faults) → Nat
  | _, [] => 0
  | db, q :: qs =>
    (if q.1.isCreate ∧ (route key db q.1 q.2).1.status = StatusCreated then 1 else 0)
      + createdCount key (route key db q.1 q.2).2 qs

/-- The ids given out by the successful creates of a sequence, in order. -/
def createdIDs (key : String → Option Int) : DB → List (Request × Faults) → List Int
  | _, [] => []
  | db, q :: qs =>
    (if q.1.isCreate ∧ (route key db q.1 q.2).1.status = StatusCreated then [db.nextID] else [])
      ++ createdIDs key (route key db q.1 q.2).2 qs

/-! ## Concrete data for the worked examples -/

/-- The reading of a plain decimal identifier such as `"12"`. -/
def decimalKey (s : String) : Option Int :=
  match s.data with
  | [] => none
  | cs =>
    if cs.all Char.isDigit then
      some ((cs.foldl (fun n c => 10 * n + (c.toNat - 48)) 0 : Nat) : Int)
    else none

/-- An empty table whose counter stands at 1. -/
def emptyDB : DB := ⟨[], 1⟩

/-- A table of three rows, one of them with `completed = 2`. -/
def sampleDB : DB :=
  ⟨[⟨1, "Create todo table", 1⟩, ⟨2, "Tell about it", 0⟩, ⟨3, "Ship it", 2⟩], 4⟩

/-- An item of 256 characters, none of them a space. -/
def longItem : String := String.mk (List.replicate 256 'a')

/-- An item of 255 characters. -/
def fullItem : String := String.mk (List.replicate 255 'a')

/-- An item of 256 characters: `fullItem` followed by one space. -/
def paddedItem : String := String.mk (List.replicate 255 'a' ++ [' '])

/-- A request sequence without a delete, served by a healthy storage: three creates, the
second of them refused, with a toggle, a get, a replace and a list in between. -/
def sampleRequests : List (Request × Faults) :=
  [(.create (some (.obj [("item", .str "a")])), healthy), (.toggle "1", healthy),
   (.get "1", healthy), (.create (some (.obj [("item", .str "")])), healthy),
   (.replace "1" (some (.obj [("item", .str "c"), ("completed", .num 1)])), healthy),
   (.list, healthy), (.create (some (.obj [("item", .str "b")])), healthy)]

/-- A request sequence without a delete and without a successful create: a create with an
empty item, a create that the storage fails, a toggle and a get of a missing row. -/
def noCreateRequests : List (Request × Faults) :=
  [(.create (some (.obj [("item", .str "")])), healthy),
   (.create (some (.obj [("item", .str "a")])), fun _ => some "driver: bad connection"),
   (.toggle "1", healthy), (.get "1", healthy)]

/-! ## Lemmas on the storage -/

theorem whereID_eq_true {key : String → Option Int} {id : String} {r : Todo} :
    whereID key id r = true ↔ key id = some r.ID := by
  simp [whereID]

theorem find?_whereID_none {key : String → Option Int} {id : String} {rows : List Todo}
    (h : ∀ r ∈ rows, key id ≠ some r.ID) : rows.find? (whereID key id) = none := by
  rw [List.find?_eq_none]
  intro r hr
  simpa [whereID] using h r hr

theorem find?_whereID_some {key : String → Option Int} {id : String} {rows : List Todo}
    {r : Todo} (hnd : (rows.map Todo.ID).Nodup) (hr : r ∈ rows) (hid : key id = some r.ID) :
    rows.find? (whereID key id) = some r := by
  induction rows with
  | nil => simp at hr
  | cons x xs ih =>
    simp only [List.map_cons, List.nodup_cons, List.mem_map, not_exists, not_and] at hnd
    rcases List.mem_cons.mp hr with rfl | hmem
    · simp [List.find?, whereID, hid]
    · have hne : key id ≠ some x.ID := by
        intro hx
        have : r.ID = x.ID := by
          rw [hid] at hx; exact Option.some.inj hx
        exact hnd.1 r hmem this
      have hx : whereID key id x = false := by
        simpa [whereID] using hne
      simp [List.find?, hx, ih hnd.2 hmem]

theorem find?_whereID_map (key : String → Option Int) (id : String) (f : Todo → Todo)
    (hf : ∀ r, (f r).ID = r.ID) (rows : List Todo) :
    (rows.map f).find? (whereID key id) = (rows.find? (whereID key id)).map f := by
  induction rows with
  | nil => rfl
  | cons x xs ih =>
    have hx : whereID key id (f x) = whereID key id x := by simp [whereID, hf]
    by_cases h : whereID key id x = true
    · simp [List.find?, hx, h]
    · simp only [Bool.not_eq_true] at h
      simp [List.find?, hx, h, ih]

theorem map_whereID_of_none {key : String → Option Int} {id : String} (g : Todo → Todo)
    {rows : List Todo} (h : ∀ r ∈ rows, key id ≠ some r.ID) :
    rows.map (fun r => if whereID key id r then g r else r) = rows := by
  induction rows with
  | nil => rfl
  | cons x xs ih =>
    have hx : whereID key id x = false := by
      simpa [whereID] using h x (List.mem_cons_self _ _)
    simp [hx, ih (fun r hr => h r (List.mem_cons_of_mem _ hr))]

theorem find?_whereID_eq_none_iff {key : String → Option Int} {id : String}
    {rows : List Todo} :
    rows.find? (whereID key id) = none ↔ ∀ r ∈ rows, key id ≠ some r.ID := by
  rw [List.find?_eq_none]
  constructor
  · intro h r hr; simpa [whereID] using h r hr
  · intro h r hr; simpa [whereID] using h r hr

theorem ite_flip_ID (key : String → Option Int) (id : String) (r : Todo) :
    (if whereID key id r then flipCompleted r else r).ID = r.ID := by
  by_cases h : whereID key id r = true <;> simp [h, flipCompleted]

theorem ite_set_ID (key : String → Option Int) (id : String) (item : String) (c : Nat)
    (r : Todo) :
    (if whereID key id r then { r with Item := item, Completed := c } else r).ID = r.ID := by
  by_cases h : whereID key id r = true <;> simp [h]

theorem find?_whereID_holds {key : String → Option Int} {id : String} {rows : List Todo}
    {x : Todo} (h : rows.find? (whereID key id) = some x) : whereID key id x = true :=
  List.find?_some h

theorem any_whereID_map {key : String → Option Int} {id : String} (f : Todo → Todo)
    (hf : ∀ r, (f r).ID = r.ID) (rows : List Todo) :
    (rows.map f).any (whereID key id) = rows.any (whereID key id) := by
  induction rows with
  | nil => rfl
  | cons x xs ih => simp [whereID, hf, ih]

theorem any_whereID_false_iff {key : String → Option Int} {id : String} {rows : List Todo} :
    rows.any (whereID key id) = false ↔ ∀ r ∈ rows, key id ≠ some r.ID := by
  rw [List.any_eq_false]
  constructor
  · intro h r hr; simpa [whereID] using h r hr
  · intro h r hr; simpa [whereID] using h r hr

theorem eq_of_ID_eq {rows : List Todo} (hnd : (rows.map Todo.ID).Nodup) {x r : Todo}
    (hx : x ∈ rows) (hr : r ∈ rows) (h : x.ID = r.ID) : x = r :=
  List.inj_on_of_nodup_map hnd hx hr h

theorem flipCompleted_ne (x : Todo) : flipCompleted (flipCompleted x) ≠ flipCompleted x := by
  intro h
  have hc := congrArg Todo.Completed h
  by_cases h0 : x.Completed = 0 <;> simp [flipCompleted, h0] at hc

theorem storeItem_fits {item : String} (h : item.length ≤ 255) : storeItem item = .ok item := by
  simp [storeItem, itemWidth, h]

theorem foldl_append_elems (xs rows : List Todo) :
    rows.foldl TodoSlice.append (.elems xs) = .elems (xs ++ rows) := by
  induction rows generalizing xs with
  | nil => simp
  | cons r rs ih => simp [List.foldl, TodoSlice.append, ih]

theorem foldl_append_nil (rows : List Todo) :
    (rows.foldl TodoSlice.append .nil).toList = rows ∧
    (rows.foldl TodoSlice.append .nil).len = rows.length := by
  cases rows with
  | nil => simp [TodoSlice.toList, TodoSlice.len]
  | cons r rs =>
    simp [List.foldl, TodoSlice.append, foldl_append_elems, TodoSlice.toList, TodoSlice.len]

theorem foldl_append_toJSON (rows : List Todo) :
    marshalTodos (rows.foldl TodoSlice.append .nil)
      = if rows.length = 0 then JSON.null else JSON.arr (rows.map marshalTodo) := by
  cases rows with
  | nil => simp [marshalTodos]
  | cons r rs => simp [List.foldl, TodoSlice.append, foldl_append_elems, marshalTodos]

/-! ## Lemmas on the handlers -/

theorem getTodoById_find (key : String → Option Int) (db : DB) (id : String) :
    getTodoById key db id none =
      (match db.rows.find? (whereID key id) with
        | none => .error ("todoById " ++ id ++ ": no such todo")
        | some x => .ok x) := by
  cases hfind : db.rows.find? (whereID key id) <;>
    simp [getTodoById, DB.selectByID, hfind]

theorem getTodoById_fault (key : String → Option Int) (db : DB) (id msg : String) :
    getTodoById key db id (some msg) = .error ("todoById " ++ id ++ ": " ++ msg) := by
  simp [getTodoById, DB.selectByID]

theorem getTodoById_none {key : String → Option Int} {db : DB} {id : String}
    (h : ∀ r ∈ db.rows, key id ≠ some r.ID) :
    getTodoById key db id none = .error ("todoById " ++ id ++ ": no such todo") := by
  rw [getTodoById_find, find?_whereID_none h]

theorem getTodoById_some {key : String → Option Int} {db : DB} {id : String} {r : Todo}
    (hnd : (db.rows.map Todo.ID).Nodup) (hr : r ∈ db.rows) (hid : key id = some r.ID) :
    getTodoById key db id none = .ok r := by
  rw [getTodoById_find, find?_whereID_some hnd hr hid]

theorem getTodo_none {key : String → Option Int} {db : DB} {id : String} {env : Faults}
    (h0 : env 0 = none) (h : ∀ r ∈ db.rows, key id ≠ some r.ID) :
    getTodo key db id env = ⟨StatusNotFound, .H ("todoById " ++ id ++ ": no such todo")⟩ := by
  simp [getTodo, h0, getTodoById_none h]

/-- The answer and the table of `toggleTodoStatus` when the storage answers both
statements, by the row the identifier selects. -/
theorem toggleTodoStatus_eq (key : String → Option Int) (db : DB) (id : String)
    (env : Faults) (h0 : env 0 = none) (h1 : env 1 = none) :
    toggleTodoStatus key db id env =
      ((match db.rows.find? (whereID key id) with
        | none => ⟨StatusBadRequest, .H ("todoById " ++ id ++ ": no such todo")⟩
        | some x => ⟨StatusOK, .todo (flipCompleted x)⟩),
       ⟨db.rows.map (fun x => if whereID key id x then flipCompleted x else x), db.nextID⟩) := by
  have hf := find?_whereID_map key id
    (fun x => if whereID key id x then flipCompleted x else x) (ite_flip_ID key id) db.rows
  cases hfind : db.rows.find? (whereID key id) with
  | none =>
    simp [toggleTodoStatus, DB.toggle, h0, h1, getTodoById_find, hf, hfind]
  | some x =>
    have hx := find?_whereID_holds hfind
    simp [toggleTodoStatus, DB.toggle, h0, h1, getTodoById_find, hf, hfind, hx]

theorem toggleTodoStatus_fault0 (key : String → Option Int) (db : DB) (id : String)
    (env : Faults) (msg : String) (h0 : env 0 = some msg) :
    toggleTodoStatus key db id env = (⟨StatusBadRequest, .H msg⟩, db) := by
  simp [toggleTodoStatus, DB.toggle, h0]

theorem toggleTodoStatus_fault1 (key : String → Option Int) (db : DB) (id : String)
    (env : Faults) (msg : String) (h0 : env 0 = none) (h1 : env 1 = some msg) :
    toggleTodoStatus key db id env =
      (⟨StatusBadRequest, .H ("todoById " ++ id ++ ": " ++ msg)⟩,
       ⟨db.rows.map (fun x => if whereID key id x then flipCompleted x else x), db.nextID⟩) := by
  simp [toggleTodoStatus, DB.toggle, h0, h1, getTodoById_fault]

theorem updateTodo_unbound (key : String → Option Int) (db : DB) (id : String)
    (body : Option JSON) (env : Faults) (e : String) (hbind : bindJSON body = .error e) :
    updateTodo key db id body env = (⟨StatusBadRequest, .H "invalid data"⟩, db) := by
  simp [updateTodo, hbind]

theorem updateTodo_fault0 (key : String → Option Int) (db : DB) (id : String)
    (body : Option JSON) (env : Faults) (td : Todo) (msg : String)
    (hbind : bindJSON body = .ok td) (h0 : env 0 = some msg) :
    updateTodo key db id body env = (⟨StatusBadRequest, .H msg⟩, db) := by
  simp [updateTodo, hbind, DB.update, h0]

theorem updateTodo_nomatch (key : String → Option Int) (db : DB) (id : String)
    (body : Option JSON) (env : Faults) (td : Todo)
    (hbind : bindJSON body = .ok td) (h0 : env 0 = none)
    (hany : db.rows.any (whereID key id) = false) :
    updateTodo key db id body env =
      ((match env 1 with
        | some msg => ⟨StatusBadRequest, .H ("todoById " ++ id ++ ": " ++ msg)⟩
        | none => ⟨StatusBadRequest, .H ("todoById " ++ id ++ ": no such todo")⟩), db) := by
  have hu : db.update key td.Item td.Completed id none = .ok db := by
    unfold DB.update
    simp only [hany, Bool.false_eq_true, if_false]
  have hno := any_whereID_false_iff.mp hany
  cases h1 : env 1 with
  | none => simp [updateTodo, hbind, h0, hu, h1, getTodoById_none hno]
  | some msg => simp [updateTodo, hbind, h0, hu, h1, getTodoById_fault]

theorem updateTodo_refused (key : String → Option Int) (db : DB) (id : String)
    (body : Option JSON) (env : Faults) (td : Todo) (e : String)
    (hbind : bindJSON body = .ok td) (h0 : env 0 = none)
    (hany : db.rows.any (whereID key id) = true) (hst : storeItem td.Item = .error e) :
    updateTodo key db id body env = (⟨StatusBadRequest, .H e⟩, db) := by
  have hu : db.update key td.Item td.Completed id none = .error e := by
    unfold DB.update
    simp only [hany, if_true, hst]
  simp [updateTodo, hbind, h0, hu]

/-- The answer and the table of `updateTodo` once the body is bound and the `UPDATE` has
stored the item as `v` in a matching row. -/
theorem updateTodo_stored (key : String → Option Int) (db : DB) (id : String)
    (body : Option JSON) (env : Faults) (td : Todo) (v : String)
    (hbind : bindJSON body = .ok td) (h0 : env 0 = none)
    (hany : db.rows.any (whereID key id) = true) (hst : storeItem td.Item = .ok v) :
    updateTodo key db id body env =
      ((match env 1 with
        | some msg => ⟨StatusBadRequest, .H ("todoById " ++ id ++ ": " ++ msg)⟩
        | none =>
          match db.rows.find? (whereID key id) with
          | none => ⟨StatusBadRequest, .H ("todoById " ++ id ++ ": no such todo")⟩
          | some x => ⟨StatusOK, .todo { x with Item := v, Completed := td.Completed }⟩),
       ⟨db.rows.map (fun x => if whereID key id x
          then { x with Item := v, Completed := td.Completed } else x), db.nextID⟩) := by
  have hf := find?_whereID_map key id
    (fun x => if whereID key id x then { x with Item := v, Completed := td.Completed } else x)
    (ite_set_ID key id v td.Completed) db.rows
  have hu : db.update key td.Item td.Completed id none = .ok ⟨db.rows.map (fun x =>
      if whereID key id x then { x with Item := v, Completed := td.Completed } else x),
      db.nextID⟩ := by
    unfold DB.update
    simp only [hany, if_true, hst]
  cases h1 : env 1 with
  | some msg => simp [updateTodo, hbind, h0, hu, h1, getTodoById_fault]
  | none =>
    cases hfind : db.rows.find? (whereID key id) with
    | none => simp [updateTodo, hbind, h0, hu, h1, getTodoById_find, hf, hfind]
    | some x =>
      have hx := find?_whereID_holds hfind
      simp [updateTodo, hbind, h0, hu, h1, getTodoById_find, hf, hfind, hx]

theorem deleteTodo_eq (key : String → Option Int) (db : DB) (id : String) (env : Faults)
    (h0 : env 0 = none) (h1 : env 1 = none) :
    deleteTodo key db id env =
      (match db.rows.find? (whereID key id) with
        | none => (⟨StatusBadRequest, .H ("todoById " ++ id ++ ": no such todo")⟩, db)
        | some x => (⟨StatusOK, .todo x⟩,
            ⟨db.rows.filter (fun r => !whereID key id r), db.nextID⟩)) := by
  cases hfind : db.rows.find? (whereID key id) with
  | none => simp [deleteTodo, h0, getTodoById_find, hfind]
  | some x => simp [deleteTodo, h0, h1, getTodoById_find, hfind, DB.delete]

/-! ## Claims on single requests -/

/-- C1 (as amended): in normal operation (the storage answers the `INSERT`) a create
request whose body binds to a Todo with a non-empty item of at most 255 characters is
answered with 201, and the table afterwards is the old table followed by one new row that
carries the submitted item and completed. -/
theorem createTodo_appends_row (db : DB) (body : Option JSON) (todo : Todo)
    (hbind : bindJSON body = .ok todo) (hitem : todo.Item ≠ "")
    (hlen : todo.Item.length ≤ 255) :
    (createTodo db body healthy).1.status = StatusCreated ∧
    (createTodo db body healthy).2.rows
      = db.rows ++ [⟨db.nextID, todo.Item, todo.Completed⟩] ∧
    (createTodo db body healthy).2.rows.length = db.rows.length + 1 := by
  simp [createTodo, hbind, hitem, DB.insert, healthy, storeItem_fits hlen]

/-- C1 (as amended) at the body with item "buy milk" on the empty table. -/
theorem createTodo_appends_row_witness :
    bindJSON (some (.obj [("item", .str "buy milk")])) = .ok ⟨0, "buy milk", 0⟩ ∧
    "buy milk" ≠ "" ∧ "buy milk".length ≤ 255 ∧
    (createTodo emptyDB (some (.obj [("item", .str "buy milk")])) healthy).1.status
      = StatusCreated ∧
    (createTodo emptyDB (some (.obj [("item", .str "buy milk")])) healthy).2.rows
      = emptyDB.rows ++ [⟨emptyDB.nextID, "buy milk", 0⟩] ∧
    (createTodo emptyDB (some (.obj [("item", .str "buy milk")])) healthy).2.rows.length
      = emptyDB.rows.length + 1 :=
  ⟨rfl, by decide, by decide,
    createTodo_appends_row emptyDB (some (.obj [("item", .str "buy milk")]))
      ⟨0, "buy milk", 0⟩ rfl (by decide) (by decide)⟩

set_option maxRecDepth 100000

/-- C1 (counterexample): the body with an item of 256 letters binds to a Todo with a
non-empty item, yet the healthy storage refuses the insert: the answer is 400 and no row is
added. -/
theorem createTodo_long_item_refused :
    bindJSON (some (.obj [("item", .str longItem)])) = .ok ⟨0, longItem, 0⟩ ∧
    longItem ≠ "" ∧
    (createTodo emptyDB (some (.obj [("item", .str longItem)])) healthy).1.status
      = StatusBadRequest ∧
    (createTodo emptyDB (some (.obj [("item", .str longItem)])) healthy).1.status
      ≠ StatusCreated ∧
    (createTodo emptyDB (some (.obj [("item", .str longItem)])) healthy).2.rows.length
      ≠ emptyDB.rows.length + 1 :=
  ⟨rfl, by decide, by decide, by decide, by decide⟩

/-- C2 (as amended): a create request whose body binds to a Todo with an empty item (the
item is empty, null or absent and every other field is well typed) is answered with 400 and
the error "Item is required", and the table is left as it was, whatever the storage does. -/
theorem createTodo_item_required (db : DB) (body : Option JSON) (todo : Todo) (env : Faults)
    (hbind : bindJSON body = .ok todo) (hitem : todo.Item = "") :
    createTodo db body env = (⟨StatusBadRequest, .H "Item is required"⟩, db) := by
  simp [createTodo, hbind, hitem]

/-- C2 (as amended) at a body without an item field. -/
theorem createTodo_item_required_witness :
    bindJSON (some (.obj [("completed", .num 1)])) = .ok ⟨0, "", 1⟩ ∧
    (⟨0, "", 1⟩ : Todo).Item = "" ∧
    createTodo sampleDB (some (.obj [("completed", .num 1)])) healthy
      = (⟨StatusBadRequest, .H "Item is required"⟩, sampleDB) :=
  ⟨rfl, rfl,
    createTodo_item_required sampleDB (some (.obj [("completed", .num 1)])) ⟨0, "", 1⟩
      healthy rfl rfl⟩

/-- C2 (counterexample): the body with the single member "completed": 300 is well-formed
JSON without an item field, and the answer is 400 with the error "invalid data", not
"Item is required". -/
theorem createTodo_ill_typed_body :
    createTodo sampleDB (some (.obj [("completed", .num 300)])) healthy
      = (⟨StatusBadRequest, .H "invalid data"⟩, sampleDB) ∧
    (createTodo sampleDB (some (.obj [("completed", .num 300)])) healthy).1.body
      ≠ .H "Item is required" :=
  ⟨by decide, by decide⟩

/-- C6 (the code at the failing input): on a table without rows `getTodos`, served by a
healthy storage, answers 200 with the nil slice, which is rendered as the JSON value null
and not as the empty array. -/
theorem getTodos_empty_table (k : Int) :
    getTodos ⟨[], k⟩ healthy = ⟨StatusOK, .todos .nil⟩ ∧
    (getTodos ⟨[], k⟩ healthy).body.toJSON = JSON.null ∧
    (getTodos ⟨[], k⟩ healthy).body.toJSON ≠ JSON.arr [] := by
  refine ⟨rfl, rfl, ?_⟩
  intro h
  cases h

/-- C7 (as amended): for an identifier that matches no row, `getTodo` answers 404 and the
error message is "todoById ", then the identifier, then ": no such todo". -/
theorem getTodo_no_such_todo (key : String → Option Int) (db : DB) (id : String)
    (hno : ∀ r ∈ db.rows, key id ≠ some r.ID) :
    getTodo key db id healthy
      = ⟨StatusNotFound, .H ("todoById " ++ id ++ ": no such todo")⟩ :=
  getTodo_none rfl hno

/-- C7 (as amended) at identifier "7" on the sample table. -/
theorem getTodo_no_such_todo_witness :
    (∀ r ∈ sampleDB.rows, decimalKey "7" ≠ some r.ID) ∧
    getTodo decimalKey sampleDB "7" healthy
      = ⟨StatusNotFound, .H ("todoById " ++ "7" ++ ": no such todo")⟩ :=
  ⟨by decide, getTodo_no_such_todo decimalKey sampleDB "7" (by decide)⟩

/-- C7 (counterexample): identifier "7" matches no row of the sample table, and the error
message of the 404 answer is "todoById 7: no such todo", not "7: no such todo". -/
theorem getTodo_message_has_function_name :
    (∀ r ∈ sampleDB.rows, decimalKey "7" ≠ some r.ID) ∧
    getTodo decimalKey sampleDB "7" healthy
      = ⟨StatusNotFound, .H "todoById 7: no such todo"⟩ ∧
    getTodo decimalKey sampleDB "7" healthy
      ≠ ⟨StatusNotFound, .H ("7" ++ ": no such todo")⟩ :=
  ⟨by decide, by decide, by decide⟩

/-- Two toggles in a row on a healthy storage, by the row the identifier selects. -/
theorem toggle_twice_eq (key : String → Option Int) (db : DB) (id : String) :
    (toggleTodoStatus key (toggleTodoStatus key db id healthy).2 id healthy).1 =
      (match db.rows.find? (whereID key id) with
        | none => ⟨StatusBadRequest, .H ("todoById " ++ id ++ ": no such todo")⟩
        | some x => ⟨StatusOK, .todo (flipCompleted (flipCompleted x))⟩) := by
  have hf := find?_whereID_map key id
    (fun x => if whereID key id x then flipCompleted x else x) (ite_flip_ID key id) db.rows
  rw [toggleTodoStatus_eq key db id healthy rfl rfl, toggleTodoStatus_eq _ _ _ healthy rfl rfl]
  simp only [hf]
  cases hfind : db.rows.find? (whereID key id) with
  | none => simp
  | some x => simp [find?_whereID_holds hfind]

/-- C3 (as amended): for a row that the identifier selects, two toggles in a row return the
Todo with id and item untouched and with completed 0 when the stored value was 0 and 1
otherwise; this is the original Todo when the stored value was 0 or 1. -/
theorem toggle_twice_normalises (key : String → Option Int) (db : DB) (id : String)
    (r : Todo) (hwf : db.WF) (hr : r ∈ db.rows) (hid : key id = some r.ID) :
    (toggleTodoStatus key (toggleTodoStatus key db id healthy).2 id healthy).1
      = ⟨StatusOK, .todo ⟨r.ID, r.Item, if r.Completed = 0 then 0 else 1⟩⟩ ∧
    (r.Completed ≤ 1 →
      (toggleTodoStatus key (toggleTodoStatus key db id healthy).2 id healthy).1
        = ⟨StatusOK, .todo r⟩) := by
  have h2 := toggle_twice_eq key db id
  rw [find?_whereID_some hwf.1 hr hid] at h2
  have hflip : flipCompleted (flipCompleted r)
      = ⟨r.ID, r.Item, if r.Completed = 0 then 0 else 1⟩ := by
    by_cases hc : r.Completed = 0 <;> simp [flipCompleted, hc]
  refine ⟨by rw [h2]; simp [hflip], ?_⟩
  intro hle
  rw [h2]
  simp only [hflip]
  have : (if r.Completed = 0 then 0 else 1) = r.Completed := by
    split <;> omega
  rw [this]

/-- C3 (as amended) at the row with id 2 of the sample table. -/
theorem toggle_twice_normalises_witness :
    sampleDB.WF ∧ (⟨2, "Tell about it", 0⟩ : Todo) ∈ sampleDB.rows ∧
    decimalKey "2" = some (2 : Int) ∧
    (toggleTodoStatus decimalKey (toggleTodoStatus decimalKey sampleDB "2" healthy).2 "2"
        healthy).1
      = ⟨StatusOK, .todo ⟨2, "Tell about it", 0⟩⟩ :=
  ⟨by decide, by decide, by decide,
    (toggle_twice_normalises decimalKey sampleDB "2" ⟨2, "Tell about it", 0⟩
      (by decide) (by decide) (by decide)).1⟩

/-- C3 (counterexample): a row created through the service with completed 2 comes back with
completed 1 after two toggles, not with its original value. -/
theorem toggle_twice_loses_two :
    (createTodo emptyDB (some (.obj [("item", .str "x"), ("completed", .num 2)])) healthy).2
      = ⟨[⟨1, "x", 2⟩], 2⟩ ∧
    decimalKey "1" = some (1 : Int) ∧
    (toggleTodoStatus decimalKey
        (toggleTodoStatus decimalKey ⟨[⟨1, "x", 2⟩], 2⟩ "1" healthy).2 "1" healthy).1
      = ⟨StatusOK, .todo ⟨1, "x", 1⟩⟩ ∧
    (toggleTodoStatus decimalKey
        (toggleTodoStatus decimalKey ⟨[⟨1, "x", 2⟩], 2⟩ "1" healthy).2 "1" healthy).1
      ≠ ⟨StatusOK, .todo ⟨1, "x", 2⟩⟩ :=
  ⟨by decide, by decide, by decide, by decide⟩

/-- C4: for a row that the identifier selects, `deleteTodo` answers 200 with that row and
removes it, every other row staying in place, and a following `getTodo` on the same
identifier answers 404 with the no-such-todo error. -/
theorem delete_then_get_not_found (key : String → Option Int) (db : DB) (id : String)
    (r : Todo) (hwf : db.WF) (hr : r ∈ db.rows) (hid : key id = some r.ID) :
    (deleteTodo key db id healthy).1 = ⟨StatusOK, .todo r⟩ ∧
    (deleteTodo key db id healthy).2
      = ⟨db.rows.filter (fun x => decide (x ≠ r)), db.nextID⟩ ∧
    getTodo key (deleteTodo key db id healthy).2 id healthy
      = ⟨StatusNotFound, .H ("todoById " ++ id ++ ": no such todo")⟩ := by
  have hfilter : db.rows.filter (fun x => !whereID key id x)
      = db.rows.filter (fun x => decide (x ≠ r)) := by
    apply List.filter_congr
    intro x hx
    by_cases hxr : x = r
    · subst hxr; simp [whereID_eq_true.mpr hid]
    · have : whereID key id x = false := by
        rw [Bool.eq_false_iff]
        intro hw
        have h1 := whereID_eq_true.mp hw
        rw [hid] at h1
        exact hxr (eq_of_ID_eq hwf.1 hx hr (Option.some.inj h1).symm)
      simp [this, hxr]
  have hd := deleteTodo_eq key db id healthy rfl rfl
  rw [find?_whereID_some hwf.1 hr hid] at hd
  simp only at hd
  rw [hd, hfilter]
  refine ⟨rfl, rfl, ?_⟩
  have hgone : ∀ x ∈ (⟨db.rows.filter (fun x => decide (x ≠ r)), db.nextID⟩ : DB).rows,
      key id ≠ some x.ID := by
    intro x hx
    simp only [List.mem_filter, decide_eq_true_eq] at hx
    intro hk
    rw [hid] at hk
    exact hx.2 (eq_of_ID_eq hwf.1 hx.1 hr (Option.some.inj hk).symm)
  exact getTodo_none rfl hgone

/-- C4 at the row with id 2 of the sample table. -/
theorem delete_then_get_not_found_witness :
    sampleDB.WF ∧ (⟨2, "Tell about it", 0⟩ : Todo) ∈ sampleDB.rows ∧
    decimalKey "2" = some (2 : Int) ∧
    (deleteTodo decimalKey sampleDB "2" healthy).1
      = ⟨StatusOK, .todo ⟨2, "Tell about it", 0⟩⟩ ∧
    (deleteTodo decimalKey sampleDB "2" healthy).2
      = ⟨sampleDB.rows.filter (fun x => decide (x ≠ ⟨2, "Tell about it", 0⟩)),
          sampleDB.nextID⟩ ∧
    getTodo decimalKey (deleteTodo decimalKey sampleDB "2" healthy).2 "2" healthy
      = ⟨StatusNotFound, .H ("todoById " ++ "2" ++ ": no such todo")⟩ :=
  ⟨by decide, by decide, by decide,
    delete_then_get_not_found decimalKey sampleDB "2" ⟨2, "Tell about it", 0⟩
      (by decide) (by decide) (by decide)⟩

/-- The two outcomes of `createTodo`: refused with the table as it was, or answered with
201 with one row added that holds the item as the column stores it. -/
theorem createTodo_cases (db : DB) (body : Option JSON) (env : Faults) :
    ((createTodo db body env).1.status = StatusBadRequest ∧ (createTodo db body env).2 = db) ∨
    ((createTodo db body env).1.status = StatusCreated ∧
      ∃ t : Todo, ∃ v : String, bindJSON body = .ok t ∧ storeItem t.Item = .ok v ∧
        (createTodo db body env).2 = ⟨db.rows ++ [⟨db.nextID, v, t.Completed⟩], db.nextID + 1⟩) := by
  cases hbind : bindJSON body with
  | error e => left; simp [createTodo, hbind]
  | ok todo =>
    by_cases hitem : todo.Item = ""
    · left; simp [createTodo, hbind, hitem]
    · cases h0 : env 0 with
      | some msg => left; simp [createTodo, hbind, hitem, DB.insert, h0]
      | none =>
        cases hst : storeItem todo.Item with
        | error e => left; simp [createTodo, hbind, hitem, DB.insert, h0, hst]
        | ok v =>
          right
          exact ⟨by simp [createTodo, hbind, hitem, DB.insert, h0, hst],
            todo, v, rfl, hst, by simp [createTodo, hbind, hitem, DB.insert, h0, hst]⟩

/-- C5 (as amended): after a create answered with 201 for a body that binds to a Todo with
an item s of at most 255 characters and completed c, the table is the old one followed by
the row of the id the storage gave out (the counter), and `getTodo` on any identifier read
as that id answers 200 with the Todo of that id, s and c, whatever id the body carried. -/
theorem get_after_create (key : String → Option Int) (db : DB) (body : Option JSON)
    (todo : Todo) (env : Faults) (hwf : db.WF) (hbind : bindJSON body = .ok todo)
    (hok : (createTodo db body env).1.status = StatusCreated)
    (hlen : todo.Item.length ≤ 255) :
    (createTodo db body env).2.rows = db.rows ++ [⟨db.nextID, todo.Item, todo.Completed⟩] ∧
    ∀ p : String, key p = some db.nextID →
      getTodo key (createTodo db body env).2 p healthy
        = ⟨StatusOK, .todo ⟨db.nextID, todo.Item, todo.Completed⟩⟩ := by
  have hrows : (createTodo db body env).2.rows
      = db.rows ++ [⟨db.nextID, todo.Item, todo.Completed⟩] := by
    rcases createTodo_cases db body env with ⟨hs, _⟩ | ⟨_, t, v, hb, hst, hdb⟩
    · rw [hs] at hok; simp at hok
    · rw [hbind] at hb
      cases hb
      rw [storeItem_fits hlen] at hst
      cases hst
      rw [hdb]
  refine ⟨hrows, ?_⟩
  intro p hp
  have hnd : ((createTodo db body env).2.rows.map Todo.ID).Nodup := by
    rw [hrows, List.map_append, List.nodup_append]
    refine ⟨hwf.1, by simp, ?_⟩
    intro a ha hb
    simp only [List.map_cons, List.map_nil, List.mem_singleton] at hb
    obtain ⟨x, hx, rfl⟩ := List.mem_map.mp ha
    have := hwf.2 x hx
    omega
  have hmem : (⟨db.nextID, todo.Item, todo.Completed⟩ : Todo)
      ∈ (createTodo db body env).2.rows := by
    rw [hrows]; simp
  simp [getTodo, healthy, getTodoById_some hnd hmem hp]

/-- C5 (as amended) at a create on the sample table whose body carries id 99. -/
theorem get_after_create_witness :
    sampleDB.WF ∧
    bindJSON (some (.obj [("id", .num 99), ("item", .str "buy milk")]))
      = .ok ⟨99, "buy milk", 0⟩ ∧
    (createTodo sampleDB (some (.obj [("id", .num 99), ("item", .str "buy milk")]))
      healthy).1.status = StatusCreated ∧
    "buy milk".length ≤ 255 ∧
    decimalKey "4" = some sampleDB.nextID ∧
    getTodo decimalKey
        (createTodo sampleDB (some (.obj [("id", .num 99), ("item", .str "buy milk")]))
          healthy).2 "4" healthy
      = ⟨StatusOK, .todo ⟨sampleDB.nextID, "buy milk", 0⟩⟩ :=
  ⟨by decide, rfl, by decide, by decide, by decide,
    (get_after_create decimalKey sampleDB
      (some (.obj [("id", .num 99), ("item", .str "buy milk")])) ⟨99, "buy milk", 0⟩
      healthy (by decide) rfl (by decide) (by decide)).2 "4" (by decide)⟩

/-- C5 (counterexample): a create whose item is 255 letters followed by one space is
answered with 201 and the column stores the 255 letters, so that `getTodo` on the new id
answers with an item that is not the submitted one. -/
theorem get_after_create_padded :
    emptyDB.WF ∧
    bindJSON (some (.obj [("item", .str paddedItem)])) = .ok ⟨0, paddedItem, 0⟩ ∧
    (createTodo emptyDB (some (.obj [("item", .str paddedItem)])) healthy).1.status
      = StatusCreated ∧
    decimalKey "1" = some emptyDB.nextID ∧
    getTodo decimalKey
        (createTodo emptyDB (some (.obj [("item", .str paddedItem)])) healthy).2 "1" healthy
      = ⟨StatusOK, .todo ⟨1, fullItem, 0⟩⟩ ∧
    getTodo decimalKey
        (createTodo emptyDB (some (.obj [("item", .str paddedItem)])) healthy).2 "1" healthy
      ≠ ⟨StatusOK, .todo ⟨1, paddedItem, 0⟩⟩ :=
  ⟨by decide, rfl, by decide, by decide, by decide, by decide⟩

/-! ## Repeated requests -/

theorem updateTodo_twice (key : String → Option Int) (db : DB) (id : String)
    (body : Option JSON) :
    updateTodo key (updateTodo key db id body healthy).2 id body healthy
      = updateTodo key db id body healthy := by
  cases hbind : bindJSON body with
  | error e => simp [updateTodo_unbound key _ id body healthy e hbind]
  | ok td =>
    cases hany : db.rows.any (whereID key id) with
    | false => simp [updateTodo_nomatch key db id body healthy td hbind rfl hany]
    | true =>
      cases hst : storeItem td.Item with
      | error e => simp [updateTodo_refused key db id body healthy td e hbind rfl hany hst]
      | ok v =>
        have hID := ite_set_ID key id v td.Completed
        have hf := find?_whereID_map key id
          (fun x => if whereID key id x
            then { x with Item := v, Completed := td.Completed } else x) hID db.rows
        have hany2 : (db.rows.map (fun x => if whereID key id x
            then { x with Item := v, Completed := td.Completed } else x)).any
              (whereID key id) = true := by
          rw [any_whereID_map _ hID]; exact hany
        rw [updateTodo_stored key db id body healthy td v hbind rfl hany hst]
        rw [updateTodo_stored key ⟨_, db.nextID⟩ id body healthy td v hbind rfl hany2 hst]
        simp only [hf, List.map_map, healthy]
        have hidem : ((fun x : Todo => if whereID key id x
              then { x with Item := v, Completed := td.Completed } else x) ∘
            (fun x : Todo => if whereID key id x
              then { x with Item := v, Completed := td.Completed } else x))
            = (fun x : Todo => if whereID key id x
              then { x with Item := v, Completed := td.Completed } else x) := by
          funext x
          by_cases hx : whereID key id x = true
          · simp [hx, whereID] at *
            simp [hx]
          · simp [hx]
        rw [hidem]
        cases hfind : db.rows.find? (whereID key id) with
        | none => simp
        | some x => simp [find?_whereID_holds hfind]

theorem toggle_twice_same_iff (key : String → Option Int) (db : DB) (id : String) :
    toggleTodoStatus key (toggleTodoStatus key db id healthy).2 id healthy
        = toggleTodoStatus key db id healthy
      ↔ ∀ r ∈ db.rows, key id ≠ some r.ID := by
  constructor
  · intro h
    rw [← find?_whereID_eq_none_iff]
    cases hfind : db.rows.find? (whereID key id) with
    | none => rfl
    | some x =>
      exfalso
      have h1 := congrArg Prod.fst h
      rw [toggle_twice_eq, toggleTodoStatus_eq key db id healthy rfl rfl, hfind] at h1
      simp only [Response.mk.injEq, Payload.todo.injEq, true_and] at h1
      exact flipCompleted_ne x h1
  · intro hno
    have hsame : (toggleTodoStatus key db id healthy).2 = db := by
      rw [toggleTodoStatus_eq key db id healthy rfl rfl]
      simp [map_whereID_of_none flipCompleted hno]
    rw [hsame]

/-- C9 (as amended): `getTodos`, `getTodo` and `updateTodo` are idempotent: the same request
served twice in a row gives the answer and the table of serving it once.
`toggleTodoStatus` is idempotent exactly on the identifiers that match no row. -/
theorem repeated_request (key : String → Option Int) (db : DB) :
    route key (route key db .list healthy).2 .list healthy = route key db .list healthy ∧
    (∀ id, route key (route key db (.get id) healthy).2 (.get id) healthy
      = route key db (.get id) healthy) ∧
    (∀ id body, route key (route key db (.replace id body) healthy).2 (.replace id body)
        healthy
      = route key db (.replace id body) healthy) ∧
    (∀ id, route key (route key db (.toggle id) healthy).2 (.toggle id) healthy
        = route key db (.toggle id) healthy
      ↔ ∀ r ∈ db.rows, key id ≠ some r.ID) :=
  ⟨rfl, fun _ => rfl, fun id body => updateTodo_twice key db id body,
    fun id => toggle_twice_same_iff key db id⟩

/-- C9 (counterexample): on the row with id 2 of the sample table one toggle leaves
completed 1 and a second toggle of the same request leaves completed 0, so that serving the
request twice differs from serving it once in the answer and in the table. -/
theorem toggle_not_idempotent :
    (route decimalKey sampleDB (.toggle "2") healthy).1
      = ⟨StatusOK, .todo ⟨2, "Tell about it", 1⟩⟩ ∧
    (route decimalKey (route decimalKey sampleDB (.toggle "2") healthy).2 (.toggle "2")
        healthy).1
      = ⟨StatusOK, .todo ⟨2, "Tell about it", 0⟩⟩ ∧
    (route decimalKey (route decimalKey sampleDB (.toggle "2") healthy).2 (.toggle "2")
        healthy).2
      ≠ (route decimalKey sampleDB (.toggle "2") healthy).2 :=
  ⟨by decide, by decide, by decide⟩

/-! ## Requests that fail -/

theorem deleteTodo_failure (key : String → Option Int) (db : DB) (id : String)
    (env : Faults) (h : (deleteTodo key db id env).1.status ≠ StatusOK) :
    (deleteTodo key db id env).2 = db := by
  cases h0 : env 0 with
  | some msg => simp [deleteTodo, h0, getTodoById_fault]
  | none =>
    cases hfind : db.rows.find? (whereID key id) with
    | none => simp [deleteTodo, h0, getTodoById_find, hfind]
    | some x =>
      cases h1 : env 1 with
      | some msg => simp [deleteTodo, h0, h1, getTodoById_find, hfind, DB.delete]
      | none => simp [deleteTodo, h0, h1, getTodoById_find, hfind, DB.delete] at h

theorem toggleTodoStatus_IDs (key : String → Option Int) (db : DB) (id : String)
    (env : Faults) :
    (toggleTodoStatus key db id env).2.rows.map Todo.ID = db.rows.map Todo.ID ∧
    (toggleTodoStatus key db id env).2.nextID = db.nextID := by
  have hfun : (fun x => Todo.ID (if whereID key id x then flipCompleted x else x)) = Todo.ID :=
    funext (ite_flip_ID key id)
  cases h0 : env 0 with
  | some msg => rw [toggleTodoStatus_fault0 key db id env msg h0]; exact ⟨rfl, rfl⟩
  | none =>
    cases h1 : env 1 with
    | some msg =>
      rw [toggleTodoStatus_fault1 key db id env msg h0 h1]
      simp [List.map_map, Function.comp_def, hfun]
    | none =>
      rw [toggleTodoStatus_eq key db id env h0 h1]
      simp [List.map_map, Function.comp_def, hfun]

theorem updateTodo_IDs (key : String → Option Int) (db : DB) (id : String)
    (body : Option JSON) (env : Faults) :
    (updateTodo key db id body env).2.rows.map Todo.ID = db.rows.map Todo.ID ∧
    (updateTodo key db id body env).2.nextID = db.nextID := by
  cases hbind : bindJSON body with
  | error e => rw [updateTodo_unbound key db id body env e hbind]; exact ⟨rfl, rfl⟩
  | ok td =>
    cases h0 : env 0 with
    | some msg => rw [updateTodo_fault0 key db id body env td msg hbind h0]; exact ⟨rfl, rfl⟩
    | none =>
      cases hany : db.rows.any (whereID key id) with
      | false => rw [updateTodo_nomatch key db id body env td hbind h0 hany]; exact ⟨rfl, rfl⟩
      | true =>
        cases hst : storeItem td.Item with
        | error e =>
          rw [updateTodo_refused key db id body env td e hbind h0 hany hst]; exact ⟨rfl, rfl⟩
        | ok v =>
          have hfun : (fun x => Todo.ID (if whereID key id x
              then { x with Item := v, Completed := td.Completed } else x)) = Todo.ID :=
            funext (ite_set_ID key id v td.Completed)
          rw [updateTodo_stored key db id body env td v hbind h0 hany hst]
          simp [List.map_map, Function.comp_def, hfun]

/-- One request other than a delete: the ids of the table grow by the id of a successful
create and by nothing else, and the counter moves with them. -/
theorem route_IDs (key : String → Option Int) (db : DB) (q : Request) (env : Faults)
    (hq : q.isDelete = false) :
    (route key db q env).2.rows.map Todo.ID = db.rows.map Todo.ID ++
        (if q.isCreate ∧ (route key db q env).1.status = StatusCreated
          then [db.nextID] else []) ∧
    (route key db q env).2.nextID = db.nextID +
        (if q.isCreate ∧ (route key db q env).1.status = StatusCreated then 1 else 0) := by
  cases q with
  | list => simp [route, Request.isCreate]
  | get id => simp [route, Request.isCreate]
  | create body =>
    simp only [route, Request.isCreate, true_and]
    rcases createTodo_cases db body env with ⟨hs, hdb⟩ | ⟨hs, t, v, _, _, hdb⟩
    · rw [hdb, hs]; simp
    · rw [hdb, hs]; simp
  | toggle id =>
    simpa [route, Request.isCreate] using toggleTodoStatus_IDs key db id env
  | replace id body =>
    simpa [route, Request.isCreate] using updateTodo_IDs key db id body env
  | delete id => simp [Request.isDelete] at hq

theorem createdCount_eq_length (key : String → Option Int) (db : DB)
    (qs : List (Request × Faults)) :
    createdCount key db qs = (createdIDs key db qs).length := by
  induction qs generalizing db with
  | nil => rfl
  | cons q qs ih =>
    simp only [createdCount, createdIDs, List.length_append, ih]
    split <;> simp

theorem serve_IDs (key : String → Option Int) (db : DB) (qs : List (Request × Faults))
    (hnd : ∀ q ∈ qs, q.1.isDelete = false) :
    (serve key db qs).rows.map Todo.ID = db.rows.map Todo.ID ++ createdIDs key db qs := by
  induction qs generalizing db with
  | nil => simp [serve, createdIDs]
  | cons q qs ih =>
    have hq := route_IDs key db q.1 q.2 (hnd q (List.mem_cons_self _ _))
    simp only [serve, createdIDs]
    rw [ih _ (fun x hx => hnd x (List.mem_cons_of_mem _ hx)), hq.1, List.append_assoc]

theorem createdIDs_ge (key : String → Option Int) (db : DB) (qs : List (Request × Faults))
    (hnd : ∀ q ∈ qs, q.1.isDelete = false) : ∀ i ∈ createdIDs key db qs, db.nextID ≤ i := by
  induction qs generalizing db with
  | nil => simp [createdIDs]
  | cons q qs ih =>
    have hq := route_IDs key db q.1 q.2 (hnd q (List.mem_cons_self _ _))
    have ih1 := ih (route key db q.1 q.2).2 (fun x hx => hnd x (List.mem_cons_of_mem _ hx))
    intro i hi
    simp only [createdIDs, List.mem_append] at hi
    rcases hi with hi | hi
    · split at hi
      · simp only [List.mem_singleton] at hi; omega
      · simp at hi
    · have := ih1 i hi
      rw [hq.2] at this
      split at this <;> omega

theorem createdIDs_nodup (key : String → Option Int) (db : DB) (qs : List (Request × Faults))
    (hnd : ∀ q ∈ qs, q.1.isDelete = false) : (createdIDs key db qs).Nodup := by
  induction qs generalizing db with
  | nil => simp [createdIDs]
  | cons q qs ih =>
    have hq := route_IDs key db q.1 q.2 (hnd q (List.mem_cons_self _ _))
    have hrest : ∀ x ∈ qs, x.1.isDelete = false :=
      fun x hx => hnd x (List.mem_cons_of_mem _ hx)
    have hge := createdIDs_ge key (route key db q.1 q.2).2 qs hrest
    simp only [createdIDs]
    rw [List.nodup_append]
    refine ⟨by split <;> simp, ih _ hrest, ?_⟩
    intro a ha hb
    have h1 := hge a hb
    rw [hq.2] at h1
    split at ha
    · rename_i hc
      simp only [List.mem_singleton] at ha
      rw [if_pos hc] at h1
      omega
    · simp at ha

theorem WF_iff_IDs (db : DB) :
    db.WF ↔ (db.rows.map Todo.ID).Nodup ∧ ∀ i ∈ db.rows.map Todo.ID, i < db.nextID := by
  simp [DB.WF]

/-- The primary key and the counter above it are kept by every request, whatever the
storage does, so that every table reached from an empty one is well formed. -/
theorem WF_route (key : String → Option Int) (db : DB) (q : Request) (env : Faults)
    (hwf : db.WF) : (route key db q env).2.WF := by
  by_cases hq : q.isDelete = false
  · have h := route_IDs key db q env hq
    rw [WF_iff_IDs] at hwf ⊢
    rw [h.1, h.2]
    split
    · refine ⟨?_, ?_⟩
      · rw [List.nodup_append]
        refine ⟨hwf.1, by simp, ?_⟩
        intro a ha hb
        simp only [List.mem_singleton] at hb
        have := hwf.2 a ha
        omega
      · intro i hi
        rcases List.mem_append.mp hi with hi | hi
        · have := hwf.2 i hi; omega
        · simp only [List.mem_singleton] at hi; omega
    · simpa using hwf
  · cases q with
    | delete id =>
      simp only [route]
      by_cases hs : (deleteTodo key db id env).1.status = StatusOK
      · have h0 : env 0 = none := by
          cases h0 : env 0 with
          | none => rfl
          | some msg => simp [deleteTodo, h0, getTodoById_fault] at hs
        have h1 : env 1 = none := by
          cases h1 : env 1 with
          | none => rfl
          | some msg =>
            exfalso
            cases hfind : db.rows.find? (whereID key id) <;>
              simp [deleteTodo, h0, h1, getTodoById_find, hfind, DB.delete] at hs
        rw [deleteTodo_eq key db id env h0 h1]
        cases hfind : db.rows.find? (whereID key id) with
        | none => exact hwf
        | some x =>
          refine ⟨?_, ?_⟩
          · exact List.Nodup.sublist (List.Sublist.map _ (List.filter_sublist _)) hwf.1
          · intro r hr
            exact hwf.2 r (List.mem_of_mem_filter hr)
      · rw [deleteTodo_failure key db id env hs]; exact hwf
    | list => simp [Request.isDelete] at hq
    | get id => simp [Request.isDelete] at hq
    | create body => simp [Request.isDelete] at hq
    | toggle id => simp [Request.isDelete] at hq
    | replace id body => simp [Request.isDelete] at hq

theorem WF_serve (key : String → Option Int) (db : DB) (qs : List (Request × Faults))
    (hwf : db.WF) : (serve key db qs).WF := by
  induction qs generalizing db with
  | nil => exact hwf
  | cons q qs ih => exact ih _ (WF_route key db q.1 q.2 hwf)

theorem WF_empty (k : Int) : (⟨[], k⟩ : DB).WF := by
  simp [DB.WF]

/-- C8 (the code on every sequence, the failing input included): from a table without rows,
after any sequence of requests without a delete, of which N creates were answered with 201,
the table holds exactly N rows whose ids are, in order and without repetition, the ids given
out by those creates, and `getTodos`, served by a healthy storage, answers 200; the body it
writes is the JSON array of those N rows when N is not 0, and the JSON value null when N
is 0. -/
theorem getTodos_after_creates (key : String → Option Int) (k : Int)
    (qs : List (Request × Faults)) (hnd : ∀ q ∈ qs, q.1.isDelete = false) :
    (getTodos (serve key ⟨[], k⟩ qs) healthy).status = StatusOK ∧
    (getTodos (serve key ⟨[], k⟩ qs) healthy).body.toJSON
      = (if createdCount key ⟨[], k⟩ qs = 0 then JSON.null
          else JSON.arr ((serve key ⟨[], k⟩ qs).rows.map marshalTodo)) ∧
    (serve key ⟨[], k⟩ qs).rows.length = createdCount key ⟨[], k⟩ qs ∧
    (serve key ⟨[], k⟩ qs).rows.map Todo.ID = createdIDs key ⟨[], k⟩ qs ∧
    (createdIDs key ⟨[], k⟩ qs).Nodup := by
  have hids : (serve key ⟨[], k⟩ qs).rows.map Todo.ID = createdIDs key ⟨[], k⟩ qs := by
    rw [serve_IDs key _ qs hnd]; simp
  have hlen : (serve key ⟨[], k⟩ qs).rows.length = createdCount key ⟨[], k⟩ qs := by
    rw [createdCount_eq_length, ← hids, List.length_map]
  refine ⟨rfl, ?_, hlen, hids, createdIDs_nodup key _ qs hnd⟩
  rw [← hlen]
  exact foldl_append_toJSON _

/-- C8 at a sequence without a successful create, where the body of `getTodos` is null,
and at a sequence with two successful creates, where it is the array of the two rows. -/
theorem getTodos_after_creates_witness :
    (∀ q ∈ noCreateRequests, q.1.isDelete = false) ∧
    createdCount decimalKey ⟨[], 1⟩ noCreateRequests = 0 ∧
    (getTodos (serve decimalKey ⟨[], 1⟩ noCreateRequests) healthy).status = StatusOK ∧
    (getTodos (serve decimalKey ⟨[], 1⟩ noCreateRequests) healthy).body.toJSON = JSON.null ∧
    (∀ q ∈ sampleRequests, q.1.isDelete = false) ∧
    createdCount decimalKey ⟨[], 1⟩ sampleRequests = 2 ∧
    (serve decimalKey ⟨[], 1⟩ sampleRequests).rows.length = 2 ∧
    (getTodos (serve decimalKey ⟨[], 1⟩ sampleRequests) healthy).body.toJSON
      = JSON.arr ((serve decimalKey ⟨[], 1⟩ sampleRequests).rows.map marshalTodo) :=
  ⟨by decide, by decide,
    (getTodos_after_creates decimalKey 1 noCreateRequests (by decide)).1,
    (getTodos_after_creates decimalKey 1 noCreateRequests (by decide)).2.1.trans
      (if_pos (by decide)),
    by decide, by decide, by decide,
    (getTodos_after_creates decimalKey 1 sampleRequests (by decide)).2.1.trans
      (if_neg (by decide))⟩

end CrudSql
